import Mathlib

/-!
Verification of the currency-converter front end (src/converter/converter.js).

The JavaScript class CurrencyConverter is shallowly embedded as a pure state
machine.  JavaScript numbers are modelled by the type JSNum: NaN, the two
infinities, and finite values as exact rationals.  Binary64 rounding is not
modelled (the spec itself treats amounts as real numbers); no claim under
verification depends on binary64 rounding, only on the NaN/Infinity
behaviour of parseFloat, comparisons and division, which are modelled
faithfully after ECMAScript.  Network responses are supplied to the
transition functions as explicit arguments (FetchOutcome), and the request
a transition issues (if any) is returned alongside the new state, so that
"issues no network call" is expressible.
-/

namespace Converter

/-- A JavaScript number: NaN, +Infinity, -Infinity, or a finite value
(modelled as an exact rational). -/
inductive JSNum where
  | nan : JSNum
  | posInf : JSNum
  | negInf : JSNum
  | num : ℚ → JSNum
deriving DecidableEq, Repr

namespace JSNum

/-- JavaScript truthiness of a number: NaN and 0 are falsy, every other
number (including the infinities) is truthy. -/
def jsTruthy : JSNum → Bool
  | nan => false
  | posInf => true
  | negInf => true
  | num q => q ≠ 0

/-- The JavaScript comparison x > 0 (false when x is NaN). -/
def gtZero : JSNum → Bool
  | nan => false
  | posInf => true
  | negInf => false
  | num q => 0 < q

/-- The JavaScript comparison x <= 0 (false when x is NaN). -/
def leZero : JSNum → Bool
  | nan => false
  | posInf => false
  | negInf => true
  | num q => q ≤ 0

/-- JavaScript division.  Division by (unsigned) zero of a nonzero finite
value is modelled as the +0 case of ECMAScript (signed zeros are not
modelled; no claim depends on them). -/
def jsDiv : JSNum → JSNum → JSNum
  | nan, _ => nan
  | _, nan => nan
  | posInf, posInf => nan
  | posInf, negInf => nan
  | negInf, posInf => nan
  | negInf, negInf => nan
  | posInf, num q => if 0 ≤ q then posInf else negInf
  | negInf, num q => if 0 ≤ q then negInf else posInf
  | num _, posInf => num 0
  | num _, negInf => num 0
  | num a, num b =>
      if b = 0 then
        if a = 0 then nan else if 0 < a then posInf else negInf
      else num (a / b)

/-- Whether the number is finite. -/
def isFinite : JSNum → Bool
  | num _ => true
  | _ => false

end JSNum

/-! ## parseFloat

A model of ECMAScript parseFloat: skip leading whitespace, read an optional
sign, then the longest prefix that is "Infinity" or a decimal literal
(digits, optional fraction, optional exponent); the rest of the string is
ignored.  NaN when no such prefix exists.  Values are exact rationals
(overflow of huge exponents to Infinity is not modelled). -/

/-- Decimal digit test. -/
def isDigitChar (c : Char) : Bool := '0' ≤ c ∧ c ≤ '9'

/-- Numeric value of a decimal digit. -/
def digitVal (c : Char) : ℕ := c.toNat - '0'.toNat

/-- Whitespace characters skipped by parseFloat. -/
def isWsChar (c : Char) : Bool :=
  c = ' ' ∨ c = '\t' ∨ c = '\n' ∨ c = '\r'

/-- Read a maximal run of digits: returns their value, how many there
were, and the rest of the input. -/
def readDigits : List Char → ℕ → ℕ → ℕ × ℕ × List Char
  | [], acc, cnt => (acc, cnt, [])
  | c :: cs, acc, cnt =>
      if isDigitChar c then readDigits cs (acc * 10 + digitVal c) (cnt + 1)
      else (acc, cnt, c :: cs)

/-- Parse the optional exponent part (e or E, optional sign, digits).
Returns the exponent as an integer; 0 when absent or malformed (a
malformed exponent is simply unconsumed trailing garbage). -/
def readExponent : List Char → ℤ
  | c :: cs =>
      if c = 'e' ∨ c = 'E' then
        match cs with
        | '+' :: ds => (readDigits ds 0 0).1
        | '-' :: ds => -((readDigits ds 0 0).1 : ℤ)
        | ds =>
            let r := readDigits ds 0 0
            if r.2.1 = 0 then 0 else (r.1 : ℤ)
      else 0
  | [] => 0

/-- Scale a rational by a power of ten with integer exponent. -/
def scalePow10 (q : ℚ) (e : ℤ) : ℚ :=
  if 0 ≤ e then q * (10 : ℚ) ^ e.toNat else q / (10 : ℚ) ^ (-e).toNat

/-- Parse an unsigned decimal literal (digits, optional fraction, optional
exponent) from the given characters; none when there is no digit at all. -/
def parseUnsignedDec (cs : List Char) : Option ℚ :=
  let ri := readDigits cs 0 0
  let intPart := ri.1
  let intCnt := ri.2.1
  let rest := ri.2.2
  match rest with
  | '.' :: cs2 =>
      let rf := readDigits cs2 0 0
      let fracPart := rf.1
      let fracCnt := rf.2.1
      if intCnt = 0 ∧ fracCnt = 0 then none
      else
        let mantissa : ℚ := (intPart : ℚ) + (fracPart : ℚ) / (10 : ℚ) ^ fracCnt
        some (scalePow10 mantissa (readExponent rf.2.2))
  | _ =>
      if intCnt = 0 then none
      else some (scalePow10 (intPart : ℚ) (readExponent rest))

/-- Parse after the optional sign: "Infinity" or a decimal literal. -/
def parseAfterSign (neg : Bool) (cs : List Char) : JSNum :=
  if ['I', 'n', 'f', 'i', 'n', 'i', 't', 'y'].isPrefixOf cs then
    if neg then JSNum.negInf else JSNum.posInf
  else
    match parseUnsignedDec cs with
    | some q => JSNum.num (if neg then -q else q)
    | none => JSNum.nan

/-- A model of ECMAScript parseFloat on the characters of the input. -/
def parseFloatChars (cs : List Char) : JSNum :=
  match cs.dropWhile isWsChar with
  | '+' :: rest => parseAfterSign false rest
  | '-' :: rest => parseAfterSign true rest
  | rest => parseAfterSign false rest

/-- A model of ECMAScript parseFloat. -/
def parseFloat (s : String) : JSNum :=
  parseFloatChars s.data

example : parseFloat "5" = JSNum.num 5 := by with_unfolding_all rfl
example : parseFloat "10" = JSNum.num 10 := by with_unfolding_all rfl
example : parseFloat "Infinity" = JSNum.posInf := by with_unfolding_all rfl
example : parseFloat "" = JSNum.nan := by with_unfolding_all rfl
example : parseFloat "abc" = JSNum.nan := by with_unfolding_all rfl
example : parseFloat "0" = JSNum.num 0 := by with_unfolding_all rfl
example : parseFloat "-3.5" = JSNum.num (-7/2) := by with_unfolding_all rfl
example : parseFloat "1e2" = JSNum.num 100 := by with_unfolding_all rfl
example : parseFloat "100" = JSNum.num 100 := by with_unfolding_all rfl
example : parseFloat "2.5abc" = JSNum.num (5/2) := by with_unfolding_all rfl
example : parseFloat " +Infinity" = JSNum.posInf := by with_unfolding_all rfl

/-! ## toFixed(2)

A model of Number.prototype.toFixed with fractionDigits = 2: a minus sign
for negative inputs, then the nonnegative value rounded to the nearest
hundredth (ties away from zero, per the "pick the larger n" clause),
printed with exactly two fraction digits. -/

/-- Two-digit zero padding of a natural number below 100. -/
def pad2 (n : ℕ) : String :=
  if n < 10 then "0" ++ toString n else toString n

/-- toFixed(2) of a nonnegative rational. -/
def toFixed2Nonneg (q : ℚ) : String :=
  let n : ℤ := ⌊q * 100 + 1 / 2⌋
  let cents : ℕ := n.toNat
  toString (cents / 100) ++ "." ++ pad2 (cents % 100)

/-- A model of JavaScript (x).toFixed(2). -/
def jsToFixed2 : JSNum → String
  | JSNum.nan => "NaN"
  | JSNum.posInf => "Infinity"
  | JSNum.negInf => "-Infinity"
  | JSNum.num q => if q < 0 then "-" ++ toFixed2Nonneg (-q) else toFixed2Nonneg q

example : jsToFixed2 (JSNum.num 5) = "5.00" := by with_unfolding_all rfl
example : jsToFixed2 (JSNum.num (-7/2)) = "-3.50" := by with_unfolding_all rfl

/-- Naive substring containment on character lists. -/
def charsContain (hay needle : List Char) : Bool :=
  match hay with
  | [] => needle.isEmpty
  | _ :: tl => needle.isPrefixOf hay || charsContain tl needle

/-- Whether needle occurs as a contiguous substring of hay. -/
def strContains (hay needle : String) : Bool :=
  charsContain hay.data needle.data

example : strContains "XXX 5.00" "XXX" = true := by with_unfolding_all rfl
example : strContains "XXX 5.00" "5.00" = true := by with_unfolding_all rfl

/-! ## The Intl.NumberFormat collaborator

Modelled from the spec: locale-aware currency formatting is delegated to a
runtime capability that is out of scope of the repository (the spec lists
it under OUT OF SCOPE and says only that it may fail for an
unrecognized/invalid currency code).  It is modelled as an abstract oracle:
some s is a successful format, none models a thrown error, which the
source catches in CurrencyConverter.formatCurrency. -/
def IntlOracle : Type := JSNum → String → Option String

/-- CurrencyConverter.formatCurrency: try the Intl oracle; on failure fall
back to the template currencyCode ++ " " ++ amount.toFixed(2).  Total by
construction, mirroring the try/catch of the source. -/
def formatCurrency (intl : IntlOracle) (amount : JSNum) (currencyCode : String) : String :=
  match intl amount currencyCode with
  | some s => s
  | none => currencyCode ++ " " ++ jsToFixed2 amount

/-! ## State of the CurrencyConverter instance

The DOM surface the class touches is folded into the state: the two
select elements (current value and option list), the amount input, the
convert button's disabled flag, and the results region, which holds
either its initial markup, a loading spinner, an error box, or a
conversion result. -/

/-- An option element of a currency select. -/
structure OptionEntry where
  value : String
  label : String
deriving DecidableEq, Repr

/-- The placeholder option written by populateCurrencyDropdowns and, per
the spec, the only option present in the initial page markup. -/
def placeholderOption : OptionEntry := ⟨"", "Select Currency"⟩

/-- What the results region displays. -/
structure RenderedResult where
  convertedAmount : JSNum
  fromCurrency : String
  toCurrency : String
  rate : JSNum
  displayAmount : JSNum
  formattedAmount : String
  formattedRate : String
  toCurrencyName : String
deriving DecidableEq, Repr

/-- The contents of the resultsContent region. -/
inductive Display where
  | initial : Display
  | loading : String → Display
  | error : String → Display
  | result : RenderedResult → Display
deriving DecidableEq, Repr

/-- Whether the display currently shows a conversion result. -/
def Display.isResult : Display → Bool
  | Display.result _ => true
  | _ => false

/-- The lastConversion record {fromCurrency, toCurrency, amount, rate}. -/
structure LastConversion where
  fromCurrency : String
  toCurrency : String
  amount : JSNum
  rate : JSNum
deriving DecidableEq, Repr

/-- The state of a CurrencyConverter instance together with the DOM it
owns. -/
structure ConvState where
  currencies : List (String × String)
  lastConversion : Option LastConversion
  fromValue : String
  toValue : String
  amountValue : String
  fromOptions : List OptionEntry
  toOptions : List OptionEntry
  convertBtnDisabled : Bool
  resultsContent : Display
deriving DecidableEq, Repr

/-- Modelled from the spec: the page markup (index.html) is not under
src/, so the pre-load DOM is taken from the spec, which says each
selector starts with only the default placeholder option and that the
fields start empty.  The JavaScript fields are from the constructor:
currencies = {}, lastConversion = null. -/
def initialState : ConvState where
  currencies := []
  lastConversion := none
  fromValue := ""
  toValue := ""
  amountValue := ""
  fromOptions := [placeholderOption]
  toOptions := [placeholderOption]
  convertBtnDisabled := true
  resultsContent := Display.initial

/-- JavaScript string truthiness: the empty string is falsy. -/
def truthyStr (s : String) : Bool := s ≠ ""

/-- The outcome the fetch collaborator hands back for one request: a
transport failure (fetch rejected, or the body failed to parse), a
response with response.ok false, or an ok response with a parsed body. -/
inductive FetchOutcome (α : Type) where
  | transportError : FetchOutcome α
  | httpError : ℕ → FetchOutcome α
  | ok : α → FetchOutcome α

/-- Whether the outcome takes the catch branch or the !response.ok throw. -/
def FetchOutcome.isFailure {α : Type} : FetchOutcome α → Bool
  | FetchOutcome.ok _ => false
  | _ => true

/-- The body of a /latest response: the rates object, a mapping from
currency code to number. -/
def Rates : Type := List (String × JSNum)

/-- JavaScript property lookup data.rates[code]; a missing key yields
undefined, which the arithmetic downstream turns into NaN, so it is
collapsed to NaN here (no claim distinguishes undefined from NaN). -/
def lookupRate (rates : Rates) (code : String) : JSNum :=
  match rates.find? (fun p => p.1 == code) with
  | some p => p.2
  | none => JSNum.nan

/-- The request a conversion issues: GET /latest?amount=A&from=F&to=T. -/
structure ConvRequest where
  amount : JSNum
  fromCurrency : String
  toCurrency : String
deriving DecidableEq, Repr

/-! ## Transitions, one per method of the class -/

/-- CurrencyConverter.showLoading. -/
def showLoading (message : String) (s : ConvState) : ConvState :=
  { s with resultsContent := Display.loading message }

/-- CurrencyConverter.showError. -/
def showError (message : String) (s : ConvState) : ConvState :=
  { s with resultsContent := Display.error message }

/-- CurrencyConverter.hideLoading: its body is empty in the source. -/
def hideLoading (s : ConvState) : ConvState := s

/-- CurrencyConverter.validateForm: isValid is the JavaScript conjunction
fromCurrency.value && toCurrency.value && amountInput.value &&
parseFloat(amountInput.value) > 0, and the button's disabled flag is set
to its negation. -/
def validateForm (s : ConvState) : ConvState :=
  let isValid := truthyStr s.fromValue && truthyStr s.toValue &&
                 truthyStr s.amountValue && (parseFloat s.amountValue).gtZero
  { s with convertBtnDisabled := !isValid }

/-- JavaScript lookup this.currencies[code] followed by || code. -/
def currencyNameOr (currencies : List (String × String)) (code : String) : String :=
  match currencies.find? (fun p => p.1 == code) with
  | some p => if truthyStr p.2 then p.2 else code
  | none => code

/-- The JavaScript expression originalAmount || parseFloat(amountValue),
where none models the null default. -/
def jsOrParse (originalAmount : Option JSNum) (amountValue : String) : JSNum :=
  match originalAmount with
  | some v => if v.jsTruthy then v else parseFloat amountValue
  | none => parseFloat amountValue

/-- CurrencyConverter.displayResult(convertedAmount, fromCurrency,
toCurrency, rate, originalAmount = null): formats the amount and the rate
through formatCurrency and writes the conversion-result markup into the
results region. -/
def displayResult (intl : IntlOracle) (convertedAmount : JSNum)
    (fromCurrency toCurrency : String) (rate : JSNum)
    (originalAmount : Option JSNum) (s : ConvState) : ConvState :=
  let toCurrencyName := currencyNameOr s.currencies toCurrency
  let formattedAmount := formatCurrency intl convertedAmount toCurrency
  let displayAmount := jsOrParse originalAmount s.amountValue
  let rendered : RenderedResult :=
    { convertedAmount := convertedAmount
      fromCurrency := fromCurrency
      toCurrency := toCurrency
      rate := rate
      displayAmount := displayAmount
      formattedAmount := formattedAmount
      formattedRate := formatCurrency intl rate toCurrency
      toCurrencyName := toCurrencyName }
  { s with resultsContent := Display.result rendered }

/-- CurrencyConverter.performConversion, with the outcome of the single
fetch it may issue passed in as resp.  Returns the new state and the
request issued, if any (none on the early returns, which also skip the
finally block, exactly as in the source). -/
def performConversion (intl : IntlOracle) (s : ConvState)
    (resp : FetchOutcome Rates) : ConvState × Option ConvRequest :=
  let fromCurrency := s.fromValue
  let toCurrency := s.toValue
  let amount := parseFloat s.amountValue
  if !(truthyStr fromCurrency) || !(truthyStr toCurrency) ||
     !amount.jsTruthy || amount.leZero then
    (showError "Please fill in all fields with valid values." s, none)
  else if fromCurrency == toCurrency then
    (displayResult intl amount fromCurrency toCurrency (JSNum.num 1) none s, none)
  else
    let req : ConvRequest := ⟨amount, fromCurrency, toCurrency⟩
    let s1 := { (showLoading "Converting..." s) with convertBtnDisabled := true }
    match resp with
    | FetchOutcome.transportError =>
        (validateForm (hideLoading
          (showError "Failed to convert currency. Please try again." s1)), some req)
    | FetchOutcome.httpError _ =>
        (validateForm (hideLoading
          (showError "Failed to convert currency. Please try again." s1)), some req)
    | FetchOutcome.ok rates =>
        let convertedAmount := lookupRate rates toCurrency
        let rate := convertedAmount.jsDiv amount
        let s2 := displayResult intl convertedAmount fromCurrency toCurrency rate
                    (some amount) s1
        let lc : LastConversion := ⟨fromCurrency, toCurrency, amount, rate⟩
        let s3 := { s2 with lastConversion := some lc }
        (validateForm (hideLoading s3), some req)

/-- CurrencyConverter.swapCurrencies, with the outcome of the fetch that a
re-issued conversion would perform passed in as resp (unused when no
conversion is triggered). -/
def swapCurrencies (intl : IntlOracle) (s : ConvState)
    (resp : FetchOutcome Rates) : ConvState × Option ConvRequest :=
  let fromValue := s.fromValue
  let toValue := s.toValue
  if truthyStr fromValue && truthyStr toValue then
    let s1 := { s with fromValue := toValue, toValue := fromValue }
    if s1.lastConversion.isSome && truthyStr s1.amountValue then
      performConversion intl s1 resp
    else (s1, none)
  else (s, none)

/-- Insertion of a catalog entry into a list sorted by code ascending. -/
def insertByCode (p : String × String) : List (String × String) → List (String × String)
  | [] => [p]
  | q :: qs => if p.1 < q.1 then p :: q :: qs else q :: insertByCode p qs

/-- The sort of Object.entries(this.currencies) by code; localeCompare
ordering is modelled as code-point string order (the catalog codes are
plain ASCII, where the two agree). -/
def sortByCode (l : List (String × String)) : List (String × String) :=
  l.foldr insertByCode []

/-- CurrencyConverter.populateCurrencyDropdowns: reset both selects to the
placeholder option, then append one option per catalog entry, labelled
"CODE - name", in code order. -/
def populateCurrencyDropdowns (s : ConvState) : ConvState :=
  let entries := sortByCode s.currencies
  let opts := placeholderOption ::
    entries.map (fun p => OptionEntry.mk p.1 (p.1 ++ " - " ++ p.2))
  { s with fromOptions := opts, toOptions := opts }

/-- CurrencyConverter.setDefaultCurrencies: select USD / EUR when the
catalog has them (JavaScript truthiness of the stored name), then
re-validate. -/
def setDefaultCurrencies (s : ConvState) : ConvState :=
  let s1 := if truthyStr (match s.currencies.find? (fun p => p.1 == "USD") with
                          | some p => p.2 | none => "")
            then { s with fromValue := "USD" } else s
  let s2 := if truthyStr (match s1.currencies.find? (fun p => p.1 == "EUR") with
                          | some p => p.2 | none => "")
            then { s1 with toValue := "EUR" } else s1
  validateForm s2

/-- CurrencyConverter.loadCurrencies, with the outcome of the
GET /currencies fetch passed in as resp.  Total: every failure is caught
and rendered as the failed-to-load error. -/
def loadCurrencies (s : ConvState)
    (resp : FetchOutcome (List (String × String))) : ConvState :=
  let s0 := showLoading "Loading currencies..." s
  match resp with
  | FetchOutcome.transportError =>
      showError "Failed to load currencies. Please refresh the page." s0
  | FetchOutcome.httpError _ =>
      showError "Failed to load currencies. Please refresh the page." s0
  | FetchOutcome.ok body =>
      hideLoading (setDefaultCurrencies (populateCurrencyDropdowns
        { s0 with currencies := body }))

/-! ## Concrete fixtures used by the witnesses -/

/-- An Intl oracle that rejects every input (always takes the catch). -/
def intlNone : IntlOracle := fun _ _ => none

/-- A form state requesting the identity conversion USD to USD of 5. -/
def sUSDUSD : ConvState :=
  { initialState with fromValue := "USD", toValue := "USD", amountValue := "5" }

/-! ## Claims -/

/-- C1: for every currency code A and valid amount a > 0, a conversion
with fromCurrency = toCurrency = A issues no network request and renders a
result whose convertedAmount is a and whose rate is 1. -/
theorem identity_conversion_no_fetch (intl : IntlOracle) (s : ConvState)
    (resp : FetchOutcome Rates) (A : String) (a : ℚ)
    (hA : A ≠ "") (hfrom : s.fromValue = A) (hto : s.toValue = A)
    (hparse : parseFloat s.amountValue = JSNum.num a) (ha : 0 < a) :
    (performConversion intl s resp).2 = none ∧
    ∃ r : RenderedResult,
      (performConversion intl s resp).1.resultsContent = Display.result r ∧
      r.convertedAmount = JSNum.num a ∧ r.rate = JSNum.num 1 := by
  have h1 : a ≠ 0 := ne_of_gt ha
  have h2 : ¬ a ≤ 0 := not_le.mpr ha
  simp [performConversion, hfrom, hto, hparse, truthyStr, JSNum.jsTruthy,
        JSNum.leZero, hA, h1, h2, displayResult]

/-- C1 witness: the identity conversion USD to USD of amount 5. -/
theorem identity_conversion_no_fetch_witness :
    ("USD" : String) ≠ "" ∧ (0:ℚ) < 5 ∧
    ((performConversion intlNone sUSDUSD FetchOutcome.transportError).2 = none ∧
     ∃ r : RenderedResult,
       (performConversion intlNone sUSDUSD FetchOutcome.transportError).1.resultsContent
         = Display.result r ∧
       r.convertedAmount = JSNum.num 5 ∧ r.rate = JSNum.num 1) :=
  ⟨by decide, by norm_num,
   identity_conversion_no_fetch intlNone sUSDUSD FetchOutcome.transportError "USD" 5
     (by decide) rfl rfl (by with_unfolding_all rfl) (by norm_num)⟩

/-- C2: on a successful non-identity conversion the rate stored in
lastConversion and the rate handed to the display both equal the exact
quotient of the service value rates[toCurrency] by the requested amount,
with no rounding before the division. -/
theorem rate_is_exact_quotient (intl : IntlOracle) (s : ConvState)
    (rates : Rates) (a c : ℚ)
    (hf : s.fromValue ≠ "") (ht : s.toValue ≠ "") (hne : s.fromValue ≠ s.toValue)
    (hparse : parseFloat s.amountValue = JSNum.num a) (ha : 0 < a)
    (hrate : lookupRate rates s.toValue = JSNum.num c) :
    (performConversion intl s (FetchOutcome.ok rates)).1.lastConversion =
      some ⟨s.fromValue, s.toValue, JSNum.num a, JSNum.num (c / a)⟩ ∧
    ∃ r : RenderedResult,
      (performConversion intl s (FetchOutcome.ok rates)).1.resultsContent
        = Display.result r ∧
      r.convertedAmount = JSNum.num c ∧ r.rate = JSNum.num (c / a) := by
  have hbeq : (s.fromValue == s.toValue) = false := by
    simp only [beq_eq_false_iff_ne, ne_eq]
    exact hne
  have ha0 : a ≠ 0 := ha.ne'
  have h2 : ¬ a ≤ 0 := not_le.mpr ha
  simp [performConversion, hf, ht, hbeq, hparse, truthyStr, JSNum.jsTruthy,
        JSNum.leZero, ha0, h2, validateForm, hideLoading, displayResult,
        JSNum.jsDiv, hrate, showLoading]

/-- A form state requesting the conversion of 100 USD into EUR. -/
def sUSDEUR100 : ConvState :=
  { initialState with fromValue := "USD", toValue := "EUR", amountValue := "100" }

/-- The rates body of the spec scenario: rates.EUR = 92.15. -/
def ratesEUR : Rates := [("EUR", JSNum.num (9215/100))]

/-- C2 witness: converting 100 USD at a service answer of 92.15 EUR stores
and displays the exact rate 0.9215. -/
theorem rate_is_exact_quotient_witness :
    sUSDEUR100.fromValue ≠ "" ∧ sUSDEUR100.toValue ≠ "" ∧
    sUSDEUR100.fromValue ≠ sUSDEUR100.toValue ∧
    parseFloat sUSDEUR100.amountValue = JSNum.num 100 ∧ (0:ℚ) < 100 ∧
    lookupRate ratesEUR sUSDEUR100.toValue = JSNum.num (9215/100) ∧
    ((performConversion intlNone sUSDEUR100 (FetchOutcome.ok ratesEUR)).1.lastConversion =
       some ⟨sUSDEUR100.fromValue, sUSDEUR100.toValue, JSNum.num 100,
             JSNum.num ((9215/100) / 100)⟩ ∧
     ∃ r : RenderedResult,
       (performConversion intlNone sUSDEUR100 (FetchOutcome.ok ratesEUR)).1.resultsContent
         = Display.result r ∧
       r.convertedAmount = JSNum.num (9215/100) ∧ r.rate = JSNum.num ((9215/100) / 100)) :=
  ⟨by decide, by decide, by decide, by with_unfolding_all rfl, by norm_num,
   by with_unfolding_all rfl,
   rate_is_exact_quotient intlNone sUSDEUR100 ratesEUR 100 (9215/100)
     (by decide) (by decide) (by decide) (by with_unfolding_all rfl) (by norm_num)
     (by with_unfolding_all rfl)⟩

/-- C3 amended: the form validates (convert button enabled) exactly when
both currency selections and the amount field are non-empty and the parsed
amount compares greater than zero under JavaScript semantics, where
+Infinity also counts; finiteness of the parsed amount is NOT checked. -/
theorem validateForm_enabled_iff (s : ConvState) :
    (validateForm s).convertBtnDisabled = false ↔
    (s.fromValue ≠ "" ∧ s.toValue ≠ "" ∧ s.amountValue ≠ "" ∧
     (parseFloat s.amountValue).gtZero = true) := by
  simp [validateForm, truthyStr, and_assoc]

/-- A form state whose amount field holds the string Infinity. -/
def sInfinityAmount : ConvState :=
  { initialState with fromValue := "USD", toValue := "EUR", amountValue := "Infinity" }

/-- C3 counterexample: with the amount field holding "Infinity" the source
enables the convert button (validation passes), although the parsed amount
is not finite; the claim, which requires a finite parsed amount, is
therefore false on this input. -/
theorem validateForm_accepts_infinite_amount :
    (validateForm sInfinityAmount).convertBtnDisabled = false ∧
    (parseFloat sInfinityAmount.amountValue).isFinite = false := by
  constructor
  · with_unfolding_all rfl
  · with_unfolding_all rfl

/-- A form state from USD to EUR with amount 10 and no recorded
conversion, as right after page load. -/
def sUSDEUR10 : ConvState :=
  { initialState with fromValue := "USD", toValue := "EUR", amountValue := "10" }

/-- C4 counterexample: in the state from=USD, to=EUR, amount=10 with no
previous successful conversion (lastConversion null, as after page load),
swap exchanges the selections but issues NO conversion request, against
the claim that a mirrored request from=EUR, to=USD, amount=10 is issued. -/
theorem swap_without_history_issues_no_request :
    (swapCurrencies intlNone sUSDEUR10 FetchOutcome.transportError).2 = none ∧
    (swapCurrencies intlNone sUSDEUR10 FetchOutcome.transportError).1.fromValue = "EUR" ∧
    (swapCurrencies intlNone sUSDEUR10 FetchOutcome.transportError).1.toValue = "USD" := by
  refine ⟨?_, ?_, ?_⟩ <;> with_unfolding_all rfl

/-- C4 amended: when both selections are non-empty and distinct, the
amount parses to a positive number, and a previous successful conversion
is recorded (lastConversion non-null), swap exchanges the two selections
and immediately re-issues a conversion whose request is the mirror of the
state (from and to swapped, amount unchanged). -/
theorem swap_with_history_reissues_mirrored (intl : IntlOracle) (s : ConvState)
    (resp : FetchOutcome Rates) (lc : LastConversion) (a : ℚ)
    (hf : s.fromValue ≠ "") (ht : s.toValue ≠ "") (hne : s.fromValue ≠ s.toValue)
    (hlc : s.lastConversion = some lc)
    (hparse : parseFloat s.amountValue = JSNum.num a) (ha : 0 < a) :
    (swapCurrencies intl s resp).1.fromValue = s.toValue ∧
    (swapCurrencies intl s resp).1.toValue = s.fromValue ∧
    (swapCurrencies intl s resp).2 =
      some ⟨JSNum.num a, s.toValue, s.fromValue⟩ := by
  have hbeq : (s.toValue == s.fromValue) = false := by
    simp only [beq_eq_false_iff_ne, ne_eq]
    exact fun h => hne h.symm
  have ha0 : a ≠ 0 := ha.ne'
  have h2 : ¬ a ≤ 0 := not_le.mpr ha
  have hempty : parseFloat "" = JSNum.nan := by with_unfolding_all rfl
  have hamt : s.amountValue ≠ "" := by
    intro h
    rw [h, hempty] at hparse
    exact JSNum.noConfusion hparse
  cases resp <;>
    simp [swapCurrencies, performConversion, hf, ht, hbeq, hlc, hparse, hamt,
          truthyStr, JSNum.jsTruthy, JSNum.leZero, ha0, h2, validateForm,
          hideLoading, displayResult, showLoading, showError]

/-- A recorded previous conversion of 10 USD into EUR. -/
def lcUSDEUR : LastConversion := ⟨"USD", "EUR", JSNum.num 10, JSNum.num 1⟩

/-- The sUSDEUR10 form state with a previous conversion recorded. -/
def sSwapReady : ConvState := { sUSDEUR10 with lastConversion := some lcUSDEUR }

/-- C4 amended witness: from=USD, to=EUR, amount=10 with a recorded
conversion: swap issues the mirrored request from=EUR, to=USD, amount 10. -/
theorem swap_with_history_reissues_mirrored_witness :
    sSwapReady.fromValue ≠ "" ∧ sSwapReady.toValue ≠ "" ∧
    sSwapReady.fromValue ≠ sSwapReady.toValue ∧
    sSwapReady.lastConversion = some lcUSDEUR ∧
    parseFloat sSwapReady.amountValue = JSNum.num 10 ∧ (0:ℚ) < 10 ∧
    ((swapCurrencies intlNone sSwapReady FetchOutcome.transportError).1.fromValue
       = sSwapReady.toValue ∧
     (swapCurrencies intlNone sSwapReady FetchOutcome.transportError).1.toValue
       = sSwapReady.fromValue ∧
     (swapCurrencies intlNone sSwapReady FetchOutcome.transportError).2 =
       some ⟨JSNum.num 10, sSwapReady.toValue, sSwapReady.fromValue⟩) :=
  ⟨by decide, by decide, by decide, rfl, by with_unfolding_all rfl, by norm_num,
   swap_with_history_reissues_mirrored intlNone sSwapReady
     FetchOutcome.transportError lcUSDEUR 10 (by decide) (by decide) (by decide)
     rfl (by with_unfolding_all rfl) (by norm_num)⟩

/-- C5 counterexample: starting with no recorded conversion, the identity
conversion USD to USD of amount 5 succeeds (a result is rendered) yet
lastConversion stays null, against the claim that every successful
conversion, identity conversions included, overwrites the slot. -/
theorem identity_success_skips_last_conversion :
    ((performConversion intlNone sUSDUSD FetchOutcome.transportError).1.resultsContent).isResult
      = true ∧
    (performConversion intlNone sUSDUSD FetchOutcome.transportError).1.lastConversion
      = none := by
  constructor
  · with_unfolding_all rfl
  · with_unfolding_all rfl

/-- C5 amended: the slot is null at page load; every successful network
(non-identity) conversion overwrites it with that conversion's request and
rate; identity conversions leave it untouched (as does every attempt whose
fromCurrency equals toCurrency). -/
theorem last_conversion_slot (intl : IntlOracle) (s : ConvState)
    (rates : Rates) (a : ℚ)
    (hf : s.fromValue ≠ "") (ht : s.toValue ≠ "") (hne : s.fromValue ≠ s.toValue)
    (hparse : parseFloat s.amountValue = JSNum.num a) (ha : 0 < a) :
    initialState.lastConversion = none ∧
    (performConversion intl s (FetchOutcome.ok rates)).1.lastConversion =
      some ⟨s.fromValue, s.toValue, JSNum.num a,
            (lookupRate rates s.toValue).jsDiv (JSNum.num a)⟩ ∧
    (∀ (s2 : ConvState) (resp2 : FetchOutcome Rates), s2.fromValue = s2.toValue →
       (performConversion intl s2 resp2).1.lastConversion = s2.lastConversion) := by
  have hbeq : (s.fromValue == s.toValue) = false := by
    simp only [beq_eq_false_iff_ne, ne_eq]
    exact hne
  have ha0 : a ≠ 0 := ha.ne'
  have h2 : ¬ a ≤ 0 := not_le.mpr ha
  refine ⟨rfl, ?_, ?_⟩
  · simp [performConversion, hf, ht, hbeq, hparse, truthyStr, JSNum.jsTruthy,
          JSNum.leZero, ha0, h2, validateForm, hideLoading, displayResult,
          showLoading]
  · intro s2 resp2 hid
    by_cases hv : (!truthyStr s2.fromValue || !truthyStr s2.toValue ||
        !(parseFloat s2.amountValue).jsTruthy || (parseFloat s2.amountValue).leZero)
        = true
    · simp [performConversion, hv, showError]
    · have hbeq2 : (s2.fromValue == s2.toValue) = true := by
        simp [hid]
      simp [performConversion, hv, hbeq2, displayResult]

/-- C5 amended witness: converting 100 USD into EUR at rates.EUR = 92.15
overwrites the slot with the request and the exact rate. -/
theorem last_conversion_slot_witness :
    sUSDEUR100.fromValue ≠ "" ∧ sUSDEUR100.toValue ≠ "" ∧
    sUSDEUR100.fromValue ≠ sUSDEUR100.toValue ∧
    parseFloat sUSDEUR100.amountValue = JSNum.num 100 ∧ (0:ℚ) < 100 ∧
    (initialState.lastConversion = none ∧
     (performConversion intlNone sUSDEUR100 (FetchOutcome.ok ratesEUR)).1.lastConversion =
       some ⟨sUSDEUR100.fromValue, sUSDEUR100.toValue, JSNum.num 100,
             (lookupRate ratesEUR sUSDEUR100.toValue).jsDiv (JSNum.num 100)⟩ ∧
     (∀ (s2 : ConvState) (resp2 : FetchOutcome Rates), s2.fromValue = s2.toValue →
        (performConversion intlNone s2 resp2).1.lastConversion = s2.lastConversion)) :=
  ⟨by decide, by decide, by decide, by with_unfolding_all rfl, by norm_num,
   last_conversion_slot intlNone sUSDEUR100 ratesEUR 100
     (by decide) (by decide) (by decide) (by with_unfolding_all rfl) (by norm_num)⟩

/-- The request performConversion issues, characterized as a function of
the form state: none when the gate rejects or the currencies coincide,
otherwise the request built from the current field values, whatever the
fetch outcome. -/
theorem performConversion_request (intl : IntlOracle) (s : ConvState)
    (resp : FetchOutcome Rates) :
    (performConversion intl s resp).2 =
      if (!truthyStr s.fromValue || !truthyStr s.toValue ||
          !(parseFloat s.amountValue).jsTruthy ||
          (parseFloat s.amountValue).leZero) then none
      else if s.fromValue == s.toValue then none
      else some ⟨parseFloat s.amountValue, s.fromValue, s.toValue⟩ := by
  by_cases h1 : (!truthyStr s.fromValue || !truthyStr s.toValue ||
      !(parseFloat s.amountValue).jsTruthy ||
      (parseFloat s.amountValue).leZero) = true
  · simp [performConversion, h1]
  · by_cases h2 : (s.fromValue == s.toValue) = true
    · simp [performConversion, h1, h2]
    · cases resp <;> simp [performConversion, h1, h2]

/-- C6: whenever performConversion actually issued a request (so the form
passed its gate and the currencies differ) and the fetch failed with a
non-ok status or a transport error, the results region shows the generic
conversion-failure error and lastConversion is exactly what it was before
the attempt.  The embedding is total, mirroring that the catch block keeps
the failure from propagating to the caller. -/
theorem conversion_failure_atomic (intl : IntlOracle) (s : ConvState)
    (resp : FetchOutcome Rates) (req : ConvRequest)
    (hreq : (performConversion intl s resp).2 = some req)
    (hfail : resp.isFailure = true) :
    (performConversion intl s resp).1.resultsContent =
      Display.error "Failed to convert currency. Please try again." ∧
    (performConversion intl s resp).1.lastConversion = s.lastConversion := by
  rw [performConversion_request] at hreq
  by_cases h1 : (!truthyStr s.fromValue || !truthyStr s.toValue ||
      !(parseFloat s.amountValue).jsTruthy ||
      (parseFloat s.amountValue).leZero) = true
  · rw [if_pos h1] at hreq
    exact absurd hreq (by simp)
  · rw [if_neg h1] at hreq
    by_cases h2 : (s.fromValue == s.toValue) = true
    · rw [if_pos h2] at hreq
      exact absurd hreq (by simp)
    · cases resp
      · simp [performConversion, h1, h2, validateForm, hideLoading, showError,
              showLoading]
      · simp [performConversion, h1, h2, validateForm, hideLoading, showError,
              showLoading]
      · exact absurd hfail (by simp [FetchOutcome.isFailure])

/-- C6 witness: converting 10 USD into EUR against a transport failure. -/
theorem conversion_failure_atomic_witness :
    (performConversion intlNone sUSDEUR10 FetchOutcome.transportError).2 =
      some ⟨JSNum.num 10, "USD", "EUR"⟩ ∧
    (FetchOutcome.transportError : FetchOutcome Rates).isFailure = true ∧
    ((performConversion intlNone sUSDEUR10 FetchOutcome.transportError).1.resultsContent =
       Display.error "Failed to convert currency. Please try again." ∧
     (performConversion intlNone sUSDEUR10 FetchOutcome.transportError).1.lastConversion =
       sUSDEUR10.lastConversion) :=
  ⟨by with_unfolding_all rfl, rfl,
   conversion_failure_atomic intlNone sUSDEUR10 FetchOutcome.transportError
     ⟨JSNum.num 10, "USD", "EUR"⟩ (by with_unfolding_all rfl) rfl⟩

/-- C7: when the catalog load fails (non-ok status or transport error)
from the freshly loaded page, the failed-to-load error is rendered and
both selectors still hold only the placeholder option.  The embedding is
total: the catch turns every failure into this state instead of
propagating it. -/
theorem catalog_load_failure_leaves_placeholder
    (resp : FetchOutcome (List (String × String)))
    (hfail : resp.isFailure = true) :
    (loadCurrencies initialState resp).resultsContent =
      Display.error "Failed to load currencies. Please refresh the page." ∧
    (loadCurrencies initialState resp).fromOptions = [placeholderOption] ∧
    (loadCurrencies initialState resp).toOptions = [placeholderOption] := by
  cases resp with
  | transportError => simp [loadCurrencies, showLoading, showError, initialState]
  | httpError n => simp [loadCurrencies, showLoading, showError, initialState]
  | ok body => simp [FetchOutcome.isFailure] at hfail

/-- C7 witness: a 500 status on GET /currencies. -/
theorem catalog_load_failure_leaves_placeholder_witness :
    (FetchOutcome.httpError 500 : FetchOutcome (List (String × String))).isFailure
      = true ∧
    ((loadCurrencies initialState (FetchOutcome.httpError 500)).resultsContent =
       Display.error "Failed to load currencies. Please refresh the page." ∧
     (loadCurrencies initialState (FetchOutcome.httpError 500)).fromOptions =
       [placeholderOption] ∧
     (loadCurrencies initialState (FetchOutcome.httpError 500)).toOptions =
       [placeholderOption]) :=
  ⟨rfl, catalog_load_failure_leaves_placeholder (FetchOutcome.httpError 500) rfl⟩

/-- The gate of performConversion coincides with the claim's precondition:
the JavaScript test amount && !(amount <= 0) is the same Boolean as
amount > 0. -/
theorem jsTruthy_and_not_leZero (a : JSNum) :
    (a.jsTruthy && !a.leZero) = a.gtZero := by
  cases a with
  | nan => rfl
  | posInf => rfl
  | negInf => rfl
  | num q =>
      simp only [JSNum.jsTruthy, JSNum.leZero, JSNum.gtZero]
      by_cases h : 0 < q
      · simp [h, h.ne', not_le.mpr h]
      · have hq : q ≤ 0 := not_lt.mp h
        by_cases h0 : q = 0
        · simp [h0]
        · simp [h0, hq, h]

/-- C8: a rate request is issued only when both currency selections are
non-empty and the parsed amount compares greater than zero; when that
precondition fails the operation issues no request and renders the
fill-in-all-fields validation error. -/
theorem request_gating (intl : IntlOracle) (s : ConvState)
    (resp : FetchOutcome Rates) :
    (∀ req : ConvRequest, (performConversion intl s resp).2 = some req →
       s.fromValue ≠ "" ∧ s.toValue ≠ "" ∧
       (parseFloat s.amountValue).gtZero = true) ∧
    (¬ (s.fromValue ≠ "" ∧ s.toValue ≠ "" ∧
        (parseFloat s.amountValue).gtZero = true) →
       (performConversion intl s resp).2 = none ∧
       (performConversion intl s resp).1.resultsContent =
         Display.error "Please fill in all fields with valid values.") := by
  have hgate : (!truthyStr s.fromValue || !truthyStr s.toValue ||
      !(parseFloat s.amountValue).jsTruthy ||
      (parseFloat s.amountValue).leZero) =
      !(truthyStr s.fromValue && truthyStr s.toValue &&
        (parseFloat s.amountValue).gtZero) := by
    rw [← jsTruthy_and_not_leZero]
    cases truthyStr s.fromValue <;> cases truthyStr s.toValue <;>
      cases (parseFloat s.amountValue).jsTruthy <;>
      cases (parseFloat s.amountValue).leZero <;> rfl
  constructor
  · intro req hreq
    rw [performConversion_request, hgate] at hreq
    by_cases hc : (truthyStr s.fromValue && truthyStr s.toValue &&
        (parseFloat s.amountValue).gtZero) = true
    · simp only [Bool.and_eq_true, truthyStr, decide_eq_true_eq] at hc
      exact ⟨hc.1.1, hc.1.2, hc.2⟩
    · rw [Bool.not_eq_true] at hc
      rw [hc] at hreq
      exact absurd hreq (by simp)
  · intro hpre
    have hc : (truthyStr s.fromValue && truthyStr s.toValue &&
        (parseFloat s.amountValue).gtZero) = false := by
      by_contra hb
      rw [Bool.not_eq_false, Bool.and_eq_true, Bool.and_eq_true] at hb
      exact hpre ⟨by simpa [truthyStr] using hb.1.1,
                  by simpa [truthyStr] using hb.1.2, hb.2⟩
    have hcond : (!truthyStr s.fromValue || !truthyStr s.toValue ||
        !(parseFloat s.amountValue).jsTruthy ||
        (parseFloat s.amountValue).leZero) = true := by
      rw [hgate, hc]
      rfl
    constructor
    · rw [performConversion_request, hcond]
      rfl
    · simp [performConversion, hcond, showError]

/-- C8 witness: on the freshly loaded page (all fields empty) no request
is issued and the validation error is rendered. -/
theorem request_gating_witness :
    ¬ (initialState.fromValue ≠ "" ∧ initialState.toValue ≠ "" ∧
       (parseFloat initialState.amountValue).gtZero = true) ∧
    ((performConversion intlNone initialState FetchOutcome.transportError).2 = none ∧
     (performConversion intlNone initialState FetchOutcome.transportError).1.resultsContent =
       Display.error "Please fill in all fields with valid values.") :=
  ⟨fun h => h.1 rfl,
   (request_gating intlNone initialState FetchOutcome.transportError).2
     (fun h => h.1 rfl)⟩

/-- C9: formatting never throws (the embedding is total for every oracle,
amount and code); when the locale formatter rejects the inputs the result
is the fallback code ++ " " ++ amount.toFixed(2), and on the unrecognized
code XXX with amount 5 the output contains the substrings XXX and 5.00. -/
theorem format_fallback (intl : IntlOracle) (amount : JSNum) (code : String)
    (h : intl amount code = none) :
    formatCurrency intl amount code = code ++ " " ++ jsToFixed2 amount ∧
    (code = "XXX" → amount = JSNum.num 5 →
       strContains (formatCurrency intl amount code) "XXX" = true ∧
       strContains (formatCurrency intl amount code) "5.00" = true) := by
  have hfb : formatCurrency intl amount code = code ++ " " ++ jsToFixed2 amount := by
    simp [formatCurrency, h]
  refine ⟨hfb, ?_⟩
  rintro rfl rfl
  rw [hfb]
  constructor
  · with_unfolding_all rfl
  · with_unfolding_all rfl

/-- C9 witness: an oracle that rejects everything, code XXX, amount 5. -/
theorem format_fallback_witness :
    intlNone (JSNum.num 5) "XXX" = none ∧
    (formatCurrency intlNone (JSNum.num 5) "XXX" =
       "XXX" ++ " " ++ jsToFixed2 (JSNum.num 5) ∧
     ("XXX" = "XXX" → JSNum.num 5 = JSNum.num 5 →
        strContains (formatCurrency intlNone (JSNum.num 5) "XXX") "XXX" = true ∧
        strContains (formatCurrency intlNone (JSNum.num 5) "XXX") "5.00" = true)) :=
  ⟨rfl, format_fallback intlNone (JSNum.num 5) "XXX" rfl⟩

/-- C10: when either currency selection is empty, swap changes nothing at
all: the state is returned untouched and no conversion request is issued. -/
theorem swap_noop_when_selection_empty (intl : IntlOracle) (s : ConvState)
    (resp : FetchOutcome Rates) (h : s.fromValue = "" ∨ s.toValue = "") :
    swapCurrencies intl s resp = (s, none) := by
  rcases h with h | h <;> simp [swapCurrencies, truthyStr, h]

/-- C10 witness: only the target currency is selected; swap is a no-op. -/
theorem swap_noop_when_selection_empty_witness :
    ({ initialState with toValue := "EUR" } : ConvState).fromValue = "" ∧
    swapCurrencies intlNone { initialState with toValue := "EUR" }
      FetchOutcome.transportError =
      ({ initialState with toValue := "EUR" }, none) :=
  ⟨rfl, swap_noop_when_selection_empty intlNone
          { initialState with toValue := "EUR" }
          FetchOutcome.transportError (Or.inl rfl)⟩

end Converter
